import Mathlib

/-!
Shallow embedding of `src/example_control_node.py` from
griptape-ai/griptape-nodes-node-development-guide.

The file defines a single class `ExampleNode(DataNode)` with:
  * a constructor registering six parameters and one button group,
  * a button handler `_update_datetime`,
  * a `process()` callback,
  * a `validate_before_workflow_run()` hook.

Python values flowing through parameters are modelled by `PyValue`
(strings, ints, floats-as-rationals, booleans, None).  Python floats are
modelled as rationals; `random.uniform(a, b)` is embedded by its
documented definition `a + (b - a) * random()` with the `random()`
outcome passed in explicitly.  The host engine's value store
(`get_parameter_value` / `set_parameter_value`) is modelled as a total
function `String → PyValue` (absent keys read as Python `None`), and the
`parameter_output_values` dict as `String → Option PyValue` (so that key
presence is observable).
-/

/-- Model of a Python value as it appears in this node's parameters.
Floats are modelled as rationals. -/
inductive PyValue where
  | str (s : String)
  | int (n : Int)
  | float (q : ℚ)
  | bool (b : Bool)
  | none
deriving DecidableEq, Repr

/-- Python truthiness (`bool(v)`) on the modelled values: `None`, `False`,
`0`, `0.0` and `""` are falsy, everything else is truthy. -/
def pyTruthy : PyValue → Bool
  | PyValue.none => false
  | PyValue.bool b => b
  | PyValue.int n => decide (n ≠ 0)
  | PyValue.float q => decide (q ≠ 0)
  | PyValue.str s => decide (s ≠ "")

/-- Python `a or b`: `a` if `a` is truthy, else `b`. -/
def pyOr (a b : PyValue) : PyValue := if pyTruthy a then a else b

/-- Python `str(v)`.  (The decimal rendering of a float by `toString` is an
approximation of CPython's float repr; the claims only exercise `str`,
`int` and `None` values here.) -/
def pyStr : PyValue → String
  | PyValue.str s => s
  | PyValue.int n => toString n
  | PyValue.float q => toString q
  | PyValue.bool b => if b then "True" else "False"
  | PyValue.none => "None"

/-- Python `float(v)`: succeeds on numbers and booleans, raises on `None`.
(Numeric-string parsing by `float(...)` is not modelled; no claim
exercises a string reaching `float(...)`.) -/
def pyFloat : PyValue → Option ℚ
  | PyValue.int n => some (n : ℚ)
  | PyValue.float q => some q
  | PyValue.bool b => some (if b then 1 else 0)
  | PyValue.str _ => Option.none
  | PyValue.none => Option.none

/-- The whitespace characters recognised by Python's `str.split()` (ASCII
range; `\x0b` is vertical tab, `\x0c` is form feed). -/
def isPySpace (c : Char) : Bool :=
  c = ' ' || c = '\t' || c = '\n' || c = '\r' || c = '\x0b' || c = '\x0c'

theorem length_dropWhile_le (p : Char → Bool) (l : List Char) :
    (l.dropWhile p).length ≤ l.length := by
  induction l with
  | nil => simp [List.dropWhile]
  | cons c cs ih =>
    simp only [List.dropWhile]
    split
    · exact Nat.le_succ_of_le ih
    · exact Nat.le_refl _

/-- Python `s.split()` (no separator argument) on a list of characters:
splits on runs of whitespace and never produces empty words. -/
def splitWS : List Char → List (List Char)
  | [] => []
  | c :: cs =>
    if isPySpace c then splitWS cs
    else (c :: cs.takeWhile (fun d => !isPySpace d)) :: splitWS (cs.dropWhile (fun d => !isPySpace d))
termination_by l => l.length
decreasing_by
  · simp
  · simp only [List.length_cons]
    exact Nat.lt_succ_of_le (length_dropWhile_le _ _)

/-- Python `" ".join(ws)` on lists of characters. -/
def joinWS : List (List Char) → List Char
  | [] => []
  | [w] => w
  | w :: ws => w ++ ' ' :: joinWS ws

/-- The word-reversal transformation of `process()`:
`" ".join(reversed(str(free_text).split()))`. -/
def reverseWords (s : String) : String :=
  String.mk (joinWS (splitWS s.toList).reverse)

/-- Python 3 `round` to an integer: round half to even (banker's rounding). -/
def roundHalfEven (q : ℚ) : Int :=
  let f := q.floor
  if q - (f : ℚ) < 1/2 then f
  else if (1:ℚ)/2 < q - (f : ℚ) then f + 1
  else if f % 2 = 0 then f else f + 1

/-- Python `round(x, 3)`: round to three decimal places, half to even. -/
def round3 (q : ℚ) : ℚ := (roundHalfEven (q * 1000) : ℚ) / 1000

/-- `random.uniform(a, b) = a + (b - a) * random()`, with the `random()`
outcome `u` (a sample of `[0, 1)`) passed explicitly. -/
def uniform (a b u : ℚ) : ℚ := a + (b - a) * u

/-- `ParameterMode` from `griptape_nodes.exe_types.core_types`. -/
inductive ParameterMode where
  | INPUT
  | PROPERTY
  | OUTPUT
deriving DecidableEq, Repr

/-- The two trait kinds used by the example node:
`Options(choices=...)` and `Slider(min_val=..., max_val=...)`. -/
inductive Trait where
  | options (choices : List String)
  | slider (min_val max_val : Int)
deriving DecidableEq, Repr

/-- A `Parameter(...)` as constructed in `ExampleNode.__init__`:
name, tooltip, type tag, allowed modes, optional traits, UI options and
an optional default value.  Sets are modelled as lists. -/
structure Parameter where
  name : String
  tooltip : String
  type : String
  allowed_modes : List ParameterMode
  traits : List Trait
  ui_options : List (String × PyValue)
  default_value : Option PyValue
deriving DecidableEq, Repr

/-- The `on_click` callback of a `ParameterButton`; the only handler in the
file is `ExampleNode._update_datetime`. -/
inductive Handler where
  | updateDatetime
deriving DecidableEq, Repr

/-- A `ParameterButton(name, label, icon, on_click)`. -/
structure ButtonDef where
  name : String
  label : String
  icon : String
  on_click : Handler
deriving DecidableEq, Repr

/-- A non-parameter node element; the file only builds one
`ParameterButtonGroup` holding buttons. -/
inductive NodeElement where
  | buttonGroup (name : String) (buttons : List ButtonDef)
deriving DecidableEq, Repr

/-- `ParameterTypeBuiltin.STR.value`. -/
def ParameterTypeBuiltin.STR : String := "str"

/-- `ParameterTypeBuiltin.INT.value`. -/
def ParameterTypeBuiltin.INT : String := "int"

/-- `ParameterTypeBuiltin.FLOAT.value`. -/
def ParameterTypeBuiltin.FLOAT : String := "float"

/-- The observable state of a node instance: its name, the registered
parameters and elements, the host's parameter-value store (reads of
absent keys yield Python `None`), and the `parameter_output_values`
dict. -/
structure NodeState where
  name : String
  metadata : Option (List (String × PyValue))
  parameters : List Parameter
  elements : List NodeElement
  values : String → PyValue
  parameter_output_values : String → Option PyValue

/-- `self.add_parameter(p)`: registers a parameter on the node. -/
def add_parameter (st : NodeState) (p : Parameter) : NodeState :=
  { st with parameters := st.parameters ++ [p] }

/-- `self.add_node_element(e)`: registers a non-parameter element. -/
def add_node_element (st : NodeState) (e : NodeElement) : NodeState :=
  { st with elements := st.elements ++ [e] }

/-- `self.get_parameter_value(k)`: reads the host's value store. -/
def get_parameter_value (st : NodeState) (k : String) : PyValue :=
  st.values k

/-- `self.set_parameter_value(k, v)`: writes the host's value store. -/
def set_parameter_value (st : NodeState) (k : String) (v : PyValue) : NodeState :=
  { st with values := fun k' => if k' = k then v else st.values k' }

/-- `super().__init__(name, metadata)`: the engine-initialised base state,
with no parameters or elements registered yet and the host value store
`vals` abstract (host-owned, out of scope of this repository). -/
def DataNode.base (name : String) (metadata : Option (List (String × PyValue)))
    (vals : String → PyValue) (outs : String → Option PyValue) : NodeState :=
  { name := name, metadata := metadata, parameters := [], elements := [],
    values := vals, parameter_output_values := outs }

/-- The `free_text` parameter as constructed in `ExampleNode.__init__`. -/
def freeTextParam : Parameter :=
  { name := "free_text"
    tooltip := "Enter any text"
    type := ParameterTypeBuiltin.STR
    allowed_modes := [ParameterMode.INPUT, ParameterMode.PROPERTY, ParameterMode.OUTPUT]
    traits := []
    ui_options := [("display_name", PyValue.str "Free Text"), ("multiline", PyValue.bool true)]
    default_value := some (PyValue.str "hello from the example node") }

/-- The `dropdown` parameter as constructed in `ExampleNode.__init__`. -/
def dropdownParam : Parameter :=
  { name := "dropdown"
    tooltip := "Select an option"
    type := ParameterTypeBuiltin.STR
    allowed_modes := [ParameterMode.INPUT, ParameterMode.PROPERTY, ParameterMode.OUTPUT]
    traits := [Trait.options ["yes", "no", "maybe"]]
    ui_options := [("display_name", PyValue.str "Dropdown")]
    default_value := some (PyValue.str "yes") }

/-- The `integer_slider` parameter as constructed in `ExampleNode.__init__`. -/
def integerSliderParam : Parameter :=
  { name := "integer_slider"
    tooltip := "Select a value"
    type := ParameterTypeBuiltin.INT
    allowed_modes := [ParameterMode.INPUT, ParameterMode.PROPERTY, ParameterMode.OUTPUT]
    traits := [Trait.slider 1 10]
    ui_options := [("display_name", PyValue.str "Integer Slider"), ("step", PyValue.int 1)]
    default_value := some (PyValue.int 5) }

/-- The `reversed_text` parameter as constructed in `ExampleNode.__init__`. -/
def reversedTextParam : Parameter :=
  { name := "reversed_text"
    tooltip := "Reversed words from free text"
    type := ParameterTypeBuiltin.STR
    allowed_modes := [ParameterMode.OUTPUT]
    traits := []
    ui_options := [("display_name", PyValue.str "Reversed Text"), ("multiline", PyValue.bool true)]
    default_value := Option.none }

/-- The `random_float` parameter as constructed in `ExampleNode.__init__`. -/
def randomFloatParam : Parameter :=
  { name := "random_float"
    tooltip := "Random float between 0 and integer slider value"
    type := ParameterTypeBuiltin.FLOAT
    allowed_modes := [ParameterMode.OUTPUT]
    traits := []
    ui_options := [("display_name", PyValue.str "Random Float")]
    default_value := Option.none }

/-- The `datetime_display` parameter as constructed in `ExampleNode.__init__`. -/
def datetimeDisplayParam : Parameter :=
  { name := "datetime_display"
    tooltip := "Current date and time"
    type := ParameterTypeBuiltin.STR
    allowed_modes := [ParameterMode.PROPERTY]
    traits := []
    ui_options := [("display_name", PyValue.str "Date/Time"), ("readonly", PyValue.bool true)]
    default_value := some (PyValue.str "Click button to update") }

/-- The `datetime_button_group` element with its single
`ParameterButton("update_datetime", ...)`. -/
def datetimeButtonGroup : NodeElement :=
  NodeElement.buttonGroup "datetime_button_group"
    [{ name := "update_datetime", label := "Update Date/Time", icon := "calendar",
       on_click := Handler.updateDatetime }]

/-- `ExampleNode.__init__(name, metadata)`: registers the six parameters
and the datetime button group, in source order. -/
def ExampleNode.init (name : String) (metadata : Option (List (String × PyValue)))
    (vals : String → PyValue) (outs : String → Option PyValue) : NodeState :=
  let st := DataNode.base name metadata vals outs
  let st := add_parameter st freeTextParam
  let st := add_parameter st dropdownParam
  let st := add_parameter st integerSliderParam
  let st := add_parameter st reversedTextParam
  let st := add_parameter st randomFloatParam
  let st := add_node_element st datetimeButtonGroup
  add_parameter st datetimeDisplayParam

/-- A `datetime.datetime` instant (only the fields `strftime` reads here). -/
structure PyDateTime where
  year : Nat
  month : Nat
  day : Nat
  hour : Nat
  minute : Nat
  second : Nat
deriving DecidableEq, Repr

/-- Zero-padded two-digit decimal rendering (`%m`, `%d`, `%H`, `%M`, `%S`
for their in-range values). -/
def pad2 (n : Nat) : List Char :=
  [Nat.digitChar (n / 10 % 10), Nat.digitChar (n % 10)]

/-- Zero-padded four-digit decimal rendering (`%Y` for years up to 9999,
the `datetime.MAXYEAR`). -/
def pad4 (n : Nat) : List Char :=
  [Nat.digitChar (n / 1000 % 10), Nat.digitChar (n / 100 % 10),
   Nat.digitChar (n / 10 % 10), Nat.digitChar (n % 10)]

/-- `t.strftime("%Y-%m-%d %H:%M:%S")`. -/
def strftimeYmdHMS (t : PyDateTime) : String :=
  String.mk (pad4 t.year ++ '-' :: pad2 t.month ++ '-' :: pad2 t.day ++
    ' ' :: pad2 t.hour ++ ':' :: pad2 t.minute ++ ':' :: pad2 t.second)

/-- Checks that a string has the shape `YYYY-MM-DD HH:MM:SS` (digits and
fixed separators), i.e. matches the format `%Y-%m-%d %H:%M:%S`. -/
def matchesYmdHMS (s : String) : Bool :=
  match s.toList with
  | [y1, y2, y3, y4, g1, m1, m2, g2, d1, d2, sp, h1, h2, c1, n1, n2, c2, s1, s2] =>
    y1.isDigit && y2.isDigit && y3.isDigit && y4.isDigit && g1 = '-' &&
    m1.isDigit && m2.isDigit && g2 = '-' && d1.isDigit && d2.isDigit &&
    sp = ' ' && h1.isDigit && h2.isDigit && c1 = ':' &&
    n1.isDigit && n2.isDigit && c2 = ':' && s1.isDigit && s2.isDigit
  | _ => false

/-- `ExampleNode._update_datetime(button, payload)`: formats the current
date/time (passed explicitly as `now`) and stores it in the
`datetime_display` parameter. -/
def ExampleNode.updateDatetime (st : NodeState) (now : PyDateTime) : NodeState :=
  set_parameter_value st "datetime_display" (PyValue.str (strftimeYmdHMS now))

/-- Result of a `process()` call: the state after the call together with
whether an exception was raised (mutations before the raise are kept,
as in Python). -/
structure ProcResult where
  state : NodeState
  raised : Bool

/-- `ExampleNode.process()`.  `u` is the `random()` outcome behind
`random.uniform`.  Reads `free_text`, `dropdown` and `integer_slider`,
writes `reversed_text`, `dropdown` and `random_float` into
`parameter_output_values`; raises (keeping the first two writes) if
`float(integer_slider)` fails. -/
def ExampleNode.process (st : NodeState) (u : ℚ) : ProcResult :=
  let free_text := pyOr (get_parameter_value st "free_text") (PyValue.str "")
  let dropdown := get_parameter_value st "dropdown"
  let integer_slider := pyOr (get_parameter_value st "integer_slider") (PyValue.int 0)
  let reversed_words := reverseWords (pyStr free_text)
  let out1 : String → Option PyValue :=
    fun k => if k = "reversed_text" then some (PyValue.str reversed_words)
             else st.parameter_output_values k
  let out2 : String → Option PyValue :=
    fun k => if k = "dropdown" then some dropdown else out1 k
  match pyFloat integer_slider with
  | Option.none => ⟨{ st with parameter_output_values := out2 }, true⟩
  | some b =>
    let random_float := round3 (uniform 0 b u)
    let out3 : String → Option PyValue :=
      fun k => if k = "random_float" then some (PyValue.float random_float) else out2 k
    ⟨{ st with parameter_output_values := out3 }, false⟩

/-- The exception type constructed by the validation hook. -/
inductive PyExc where
  | valueError (msg : String)
deriving DecidableEq, Repr

/-- The f-string
`f"The '\x7bself.name\x7d' node's 'free_text' parameter is empty."`. -/
def freeTextErrorMsg (name : String) : String :=
  "The " ++ "'" ++ name ++ "'" ++ " node" ++ "'" ++ "s " ++ "'" ++
    "free_text" ++ "'" ++ " parameter is empty."

/-- `ExampleNode.validate_before_workflow_run()`: appends a `ValueError`
when `free_text` is empty, then returns `errors if errors else None`. -/
def ExampleNode.validateBeforeWorkflowRun (st : NodeState) : Option (List PyExc) :=
  let free_text_value := get_parameter_value st "free_text"
  let errors : List PyExc :=
    if pyTruthy free_text_value then []
    else [PyExc.valueError (freeTextErrorMsg st.name)]
  if errors = [] then Option.none else some errors

theorem splitWS_nil : splitWS [] = [] := by
  rw [splitWS]

theorem splitWS_cons (c : Char) (cs : List Char) :
    splitWS (c :: cs) = if isPySpace c then splitWS cs
      else (c :: cs.takeWhile (fun d => !isPySpace d)) ::
        splitWS (cs.dropWhile (fun d => !isPySpace d)) := by
  rw [splitWS.eq_def]

theorem joinWS_cons2 (w x : List Char) (ws : List (List Char)) :
    joinWS (w :: x :: ws) = w ++ ' ' :: joinWS (x :: ws) := by
  rw [joinWS]
  simp

theorem takeWhile_nospace (w : List Char) (hns : ∀ c ∈ w, isPySpace c = false) :
    w.takeWhile (fun d => !isPySpace d) = w := by
  induction w with
  | nil => rfl
  | cons c w ih =>
    have hc : isPySpace c = false := hns c (List.mem_cons_self c w)
    simp only [List.takeWhile_cons, hc, Bool.not_false, if_true]
    rw [ih fun d hd => hns d (List.mem_cons_of_mem c hd)]

theorem dropWhile_nospace (w : List Char) (hns : ∀ c ∈ w, isPySpace c = false) :
    w.dropWhile (fun d => !isPySpace d) = [] := by
  induction w with
  | nil => rfl
  | cons c w ih =>
    have hc : isPySpace c = false := hns c (List.mem_cons_self c w)
    simp only [List.dropWhile_cons, hc, Bool.not_false, if_true]
    exact ih fun d hd => hns d (List.mem_cons_of_mem c hd)

theorem takeWhile_nospace_append (w cs : List Char) (hns : ∀ c ∈ w, isPySpace c = false) :
    (w ++ cs).takeWhile (fun d => !isPySpace d) = w ++ cs.takeWhile (fun d => !isPySpace d) := by
  induction w with
  | nil => rfl
  | cons c w ih =>
    have hc : isPySpace c = false := hns c (List.mem_cons_self c w)
    simp only [List.cons_append, List.takeWhile_cons, hc, Bool.not_false, if_true]
    rw [ih fun d hd => hns d (List.mem_cons_of_mem c hd)]

theorem dropWhile_nospace_append (w cs : List Char) (hns : ∀ c ∈ w, isPySpace c = false) :
    (w ++ cs).dropWhile (fun d => !isPySpace d) = cs.dropWhile (fun d => !isPySpace d) := by
  induction w with
  | nil => rfl
  | cons c w ih =>
    have hc : isPySpace c = false := hns c (List.mem_cons_self c w)
    simp only [List.cons_append, List.dropWhile_cons, hc, Bool.not_false, if_true]
    exact ih fun d hd => hns d (List.mem_cons_of_mem c hd)

/-- Every word produced by `splitWS` is nonempty and whitespace-free. -/
theorem splitWS_words (l : List Char) :
    ∀ w ∈ splitWS l, w ≠ [] ∧ ∀ c ∈ w, isPySpace c = false := by
  induction l using splitWS.induct with
  | case1 =>
    intro w hw
    simp [splitWS] at hw
  | case2 c cs h ih =>
    intro w hw
    rw [splitWS, if_pos h] at hw
    exact ih w hw
  | case3 c cs h ih =>
    intro w hw
    rw [splitWS, if_neg h] at hw
    have hc : isPySpace c = false := by
      cases hb : isPySpace c
      · rfl
      · exact absurd hb h
    rcases List.mem_cons.mp hw with rfl | hw
    · refine ⟨by simp, ?_⟩
      intro d hd
      rcases List.mem_cons.mp hd with rfl | hd
      · exact hc
      · have := List.mem_takeWhile_imp hd
        simpa using this
    · exact ih w hw

/-- `splitWS` of a single whitespace-free nonempty word is that word. -/
theorem splitWS_word (w : List Char) (hne : w ≠ [])
    (hns : ∀ c ∈ w, isPySpace c = false) : splitWS w = [w] := by
  cases w with
  | nil => exact absurd rfl hne
  | cons c w =>
    have hc : isPySpace c = false := hns c (List.mem_cons_self c w)
    have hw : ∀ d ∈ w, isPySpace d = false := fun d hd => hns d (List.mem_cons_of_mem c hd)
    rw [splitWS_cons, if_neg (by simp [hc])]
    rw [takeWhile_nospace w hw, dropWhile_nospace w hw, splitWS_nil]

/-- Peeling one whitespace-free word (followed by a space) off `splitWS`. -/
theorem splitWS_word_append (w cs : List Char) (hne : w ≠ [])
    (hns : ∀ c ∈ w, isPySpace c = false) :
    splitWS (w ++ ' ' :: cs) = w :: splitWS cs := by
  cases w with
  | nil => exact absurd rfl hne
  | cons c w =>
    have hc : isPySpace c = false := hns c (List.mem_cons_self c w)
    have hw : ∀ d ∈ w, isPySpace d = false := fun d hd => hns d (List.mem_cons_of_mem c hd)
    rw [List.cons_append, splitWS_cons, if_neg (by simp [hc])]
    rw [takeWhile_nospace_append w (' ' :: cs) hw, dropWhile_nospace_append w (' ' :: cs) hw]
    have hsp : isPySpace ' ' = true := by decide
    rw [List.takeWhile_cons, List.dropWhile_cons]
    simp only [hsp, Bool.not_true, Bool.false_eq_true, if_false, List.append_nil]
    rw [splitWS_cons, if_pos hsp]

/-- `splitWS` is a left inverse of `joinWS` on lists of nonempty
whitespace-free words. -/
theorem splitWS_joinWS (ws : List (List Char))
    (h : ∀ w ∈ ws, w ≠ [] ∧ ∀ c ∈ w, isPySpace c = false) :
    splitWS (joinWS ws) = ws := by
  induction ws with
  | nil => rw [joinWS, splitWS_nil]
  | cons w ws ih =>
    obtain ⟨hne, hns⟩ := h w (List.mem_cons_self w ws)
    cases ws with
    | nil => rw [joinWS]; exact splitWS_word w hne hns
    | cons x ws' =>
      rw [joinWS_cons2, splitWS_word_append w _ hne hns]
      rw [ih fun v hv => h v (List.mem_cons_of_mem w hv)]

theorem le_roundHalfEven (l : Int) (q : ℚ) (h : (l : ℚ) ≤ q) : l ≤ roundHalfEven q := by
  have hf : l ≤ q.floor := Rat.le_floor.mpr h
  simp only [roundHalfEven]
  split
  · exact hf
  · split
    · omega
    · split
      · exact hf
      · omega

theorem roundHalfEven_le (q : ℚ) (m : Int) (h : q ≤ (m : ℚ)) : roundHalfEven q ≤ m := by
  have hfl : (q.floor : ℚ) ≤ q := Rat.le_floor.mp (le_refl _)
  have hfm : q.floor ≤ m := by exact_mod_cast le_trans hfl h
  by_cases h1 : q - (q.floor : ℚ) < 1/2
  · simp only [roundHalfEven, if_pos h1]
    exact hfm
  · have hlt : q.floor < m := by
      rcases lt_or_eq_of_le hfm with h' | h'
      · exact h'
      · exfalso
        apply h1
        have hq : q ≤ (q.floor : ℚ) := by rw [h']; exact h
        have hqe : q - (q.floor : ℚ) = 0 := by linarith
        rw [hqe]
        norm_num
    simp only [roundHalfEven, if_neg h1]
    split
    · omega
    · split <;> omega

theorem round3_nonneg (q : ℚ) (h : 0 ≤ q) : 0 ≤ round3 q := by
  unfold round3
  apply div_nonneg _ (by norm_num)
  have h0 : ((0 : Int) : ℚ) ≤ q * 1000 := by push_cast; nlinarith
  exact_mod_cast le_roundHalfEven 0 (q * 1000) h0

theorem round3_le_int (q : ℚ) (m : Int) (h : q ≤ (m : ℚ)) : round3 q ≤ (m : ℚ) := by
  unfold round3
  rw [div_le_iff₀ (by norm_num : (0:ℚ) < 1000)]
  have h1 : q * 1000 ≤ ((m * 1000 : Int) : ℚ) := by push_cast; nlinarith
  have h2 : roundHalfEven (q * 1000) ≤ m * 1000 := roundHalfEven_le _ _ h1
  calc (roundHalfEven (q * 1000) : ℚ) ≤ ((m * 1000 : Int) : ℚ) := by exact_mod_cast h2
    _ = (m : ℚ) * 1000 := by push_cast; ring

theorem roundHalfEven_zero : roundHalfEven 0 = 0 := by
  have h0 : (0 : ℚ).floor = 0 := by rw [Rat.floor_def']; rfl
  simp only [roundHalfEven, h0]
  norm_num

theorem round3_zero : round3 0 = 0 := by
  unfold round3
  rw [show (0 : ℚ) * 1000 = 0 by ring, roundHalfEven_zero]
  norm_num

theorem uniform_zero_zero (u : ℚ) : uniform 0 0 u = 0 := by
  unfold uniform
  ring

/-- Claim C10: reversing words twice yields the whitespace-normalised
string: for every string `s`,
`reverseWords (reverseWords s)` equals `" ".join(s.split())`; on strings
already in that normal form the transformation is an involution. -/
theorem reverseWords_reverseWords (s : String) :
    reverseWords (reverseWords s) = String.mk (joinWS (splitWS s.toList)) := by
  unfold reverseWords
  have h : ∀ w ∈ (splitWS s.toList).reverse, w ≠ [] ∧ ∀ c ∈ w, isPySpace c = false := by
    intro w hw
    exact splitWS_words s.toList w (List.mem_reverse.mp hw)
  rw [show (String.mk (joinWS (splitWS s.toList).reverse)).toList
      = joinWS (splitWS s.toList).reverse from rfl]
  rw [splitWS_joinWS _ h, List.reverse_reverse]

theorem pyOr_str_empty (s : String) :
    pyOr (PyValue.str s) (PyValue.str "") = PyValue.str s := by
  by_cases hs : s = ""
  · rw [hs]
    rfl
  · simp [pyOr, pyTruthy, hs]

/-- Claim C1: for every (string) value of the `free_text` parameter,
`process()` writes to the `reversed_text` output the words of
`free_text` in reverse order: the result equals joining, with single
spaces, the reverse of the whitespace-split word list of `free_text`. -/
theorem process_writes_reversed_text (st : NodeState) (u : ℚ) (s : String)
    (h : st.values "free_text" = PyValue.str s) :
    (ExampleNode.process st u).state.parameter_output_values "reversed_text" =
      some (PyValue.str (String.mk (joinWS (splitWS s.toList).reverse))) := by
  unfold ExampleNode.process
  simp only [get_parameter_value, h, pyOr_str_empty]
  cases hf : pyFloat (pyOr (st.values "integer_slider") (PyValue.int 0)) with
  | none => simp [reverseWords, pyStr]
  | some b => simp [reverseWords, pyStr]

theorem process_eq_of_pyFloat_none (st : NodeState) (u : ℚ)
    (hf : pyFloat (pyOr (st.values "integer_slider") (PyValue.int 0)) = Option.none) :
    ExampleNode.process st u =
      ⟨{ st with parameter_output_values := fun k =>
          if k = "dropdown" then some (st.values "dropdown")
          else if k = "reversed_text" then
                 some (PyValue.str (reverseWords (pyStr (pyOr (st.values "free_text") (PyValue.str "")))))
          else st.parameter_output_values k }, true⟩ := by
  unfold ExampleNode.process
  simp only [get_parameter_value]
  rw [hf]

theorem process_eq_of_pyFloat_some (st : NodeState) (u : ℚ) (b : ℚ)
    (hf : pyFloat (pyOr (st.values "integer_slider") (PyValue.int 0)) = some b) :
    ExampleNode.process st u =
      ⟨{ st with parameter_output_values := fun k =>
          if k = "random_float" then some (PyValue.float (round3 (uniform 0 b u)))
          else if k = "dropdown" then some (st.values "dropdown")
          else if k = "reversed_text" then
                 some (PyValue.str (reverseWords (pyStr (pyOr (st.values "free_text") (PyValue.str "")))))
          else st.parameter_output_values k }, false⟩ := by
  unfold ExampleNode.process
  simp only [get_parameter_value]
  rw [hf]

/-- Claim C4: `process()` reads at most the three parameters `free_text`,
`dropdown` and `integer_slider` (its result depends on no other key of
the value store), writes only to `parameter_output_values` and there
only the keys `reversed_text`, `dropdown` and `random_float` (all three
exactly when no exception is raised), leaves every registered
parameter, the value store, the elements and the node name unchanged,
and passes the `dropdown` input through unchanged. -/
theorem process_frame (st : NodeState) (u : ℚ) :
    ((ExampleNode.process st u).state.name = st.name ∧
     (ExampleNode.process st u).state.metadata = st.metadata ∧
     (ExampleNode.process st u).state.parameters = st.parameters ∧
     (ExampleNode.process st u).state.elements = st.elements ∧
     (ExampleNode.process st u).state.values = st.values) ∧
    (∀ k, k ≠ "reversed_text" → k ≠ "dropdown" → k ≠ "random_float" →
      (ExampleNode.process st u).state.parameter_output_values k =
        st.parameter_output_values k) ∧
    ((ExampleNode.process st u).state.parameter_output_values "dropdown" =
      some (st.values "dropdown")) ∧
    ((ExampleNode.process st u).raised = false →
      (∃ s, (ExampleNode.process st u).state.parameter_output_values "reversed_text" =
         some (PyValue.str s)) ∧
      (∃ q, (ExampleNode.process st u).state.parameter_output_values "random_float" =
         some (PyValue.float q))) ∧
    (∀ vs : String → PyValue,
      vs "free_text" = st.values "free_text" →
      vs "dropdown" = st.values "dropdown" →
      vs "integer_slider" = st.values "integer_slider" →
      (ExampleNode.process { st with values := vs } u).raised =
        (ExampleNode.process st u).raised ∧
      ∀ k, (ExampleNode.process { st with values := vs } u).state.parameter_output_values k =
        (ExampleNode.process st u).state.parameter_output_values k) := by
  cases hf : pyFloat (pyOr (st.values "integer_slider") (PyValue.int 0)) with
  | none =>
    rw [process_eq_of_pyFloat_none st u hf]
    refine ⟨⟨rfl, rfl, rfl, rfl, rfl⟩, ?_, ?_, ?_, ?_⟩
    · intro k h1 h2 h3
      simp [h1, h2]
    · simp
    · intro h
      exact Bool.noConfusion h
    · intro vs h1 h2 h3
      have hf' : pyFloat (pyOr ((({ st with values := vs } : NodeState)).values "integer_slider")
          (PyValue.int 0)) = Option.none := by
        show pyFloat (pyOr (vs "integer_slider") (PyValue.int 0)) = Option.none
        rw [h3]
        exact hf
      rw [process_eq_of_pyFloat_none _ u hf']
      refine ⟨rfl, ?_⟩
      intro k
      show (if k = "dropdown" then some (vs "dropdown")
        else if k = "reversed_text" then
               some (PyValue.str (reverseWords (pyStr (pyOr (vs "free_text") (PyValue.str "")))))
        else st.parameter_output_values k) = _
      rw [h1, h2]
  | some b =>
    rw [process_eq_of_pyFloat_some st u b hf]
    refine ⟨⟨rfl, rfl, rfl, rfl, rfl⟩, ?_, ?_, ?_, ?_⟩
    · intro k h1 h2 h3
      simp [h1, h2, h3]
    · simp
    · intro _
      constructor
      · refine ⟨reverseWords (pyStr (pyOr (st.values "free_text") (PyValue.str ""))), ?_⟩
        simp
      · refine ⟨round3 (uniform 0 b u), ?_⟩
        simp
    · intro vs h1 h2 h3
      have hf' : pyFloat (pyOr ((({ st with values := vs } : NodeState)).values "integer_slider")
          (PyValue.int 0)) = some b := by
        show pyFloat (pyOr (vs "integer_slider") (PyValue.int 0)) = some b
        rw [h3]
        exact hf
      rw [process_eq_of_pyFloat_some _ u b hf']
      refine ⟨rfl, ?_⟩
      intro k
      show (if k = "random_float" then some (PyValue.float (round3 (uniform 0 b u)))
        else if k = "dropdown" then some (vs "dropdown")
        else if k = "reversed_text" then
               some (PyValue.str (reverseWords (pyStr (pyOr (vs "free_text") (PyValue.str "")))))
        else st.parameter_output_values k) = _
      rw [h1, h2]

/-- Claim C2: `validate_before_workflow_run()` returns a singleton list
holding a `ValueError` naming the node and `free_text` exactly when the
`free_text` value is empty (falsy), and `None` exactly when it is
non-empty. -/
theorem validate_result_iff_empty (st : NodeState) :
    (pyTruthy (get_parameter_value st "free_text") = false →
      ExampleNode.validateBeforeWorkflowRun st =
        some [PyExc.valueError (freeTextErrorMsg st.name)]) ∧
    (pyTruthy (get_parameter_value st "free_text") = true →
      ExampleNode.validateBeforeWorkflowRun st = Option.none) ∧
    (ExampleNode.validateBeforeWorkflowRun st = Option.none ↔
      pyTruthy (get_parameter_value st "free_text") = true) := by
  unfold ExampleNode.validateBeforeWorkflowRun
  cases h : pyTruthy (get_parameter_value st "free_text") with
  | false => simp [h]
  | true => simp [h]

/-- Claim C8: the validation hook never returns an empty list: its result
is `None` or a list of length exactly one. -/
theorem validate_none_or_singleton (st : NodeState) :
    ExampleNode.validateBeforeWorkflowRun st = Option.none ∨
    ∃ e, ExampleNode.validateBeforeWorkflowRun st = some [e] := by
  unfold ExampleNode.validateBeforeWorkflowRun
  cases h : pyTruthy (get_parameter_value st "free_text") with
  | false =>
    right
    exact ⟨PyExc.valueError (freeTextErrorMsg st.name), by simp [h]⟩
  | true =>
    left
    simp [h]

/-- Claim C3: for every non-negative integer value `n` of `integer_slider`
and every outcome `u` of `random()`, `process()` completes and writes to
`random_float` a value in the closed interval `[0, n]`. -/
theorem process_random_float_bounded (st : NodeState) (u : ℚ) (n : Int)
    (hv : st.values "integer_slider" = PyValue.int n) (hn : 0 ≤ n)
    (hu0 : 0 ≤ u) (hu1 : u < 1) :
    (ExampleNode.process st u).raised = false ∧
    ∃ q, (ExampleNode.process st u).state.parameter_output_values "random_float" =
        some (PyValue.float q) ∧ 0 ≤ q ∧ q ≤ (n : ℚ) := by
  have hor : pyOr (PyValue.int n) (PyValue.int 0) = PyValue.int n := by
    by_cases h0 : n = 0
    · rw [h0]
      rfl
    · simp [pyOr, pyTruthy, h0]
  have hf : pyFloat (pyOr (st.values "integer_slider") (PyValue.int 0)) = some ((n : Int) : ℚ) := by
    rw [hv, hor]
    rfl
  rw [process_eq_of_pyFloat_some st u _ hf]
  have hnq : (0 : ℚ) ≤ (n : ℚ) := by exact_mod_cast hn
  refine ⟨rfl, round3 (uniform 0 ((n : Int) : ℚ) u), by simp, ?_, ?_⟩
  · apply round3_nonneg
    unfold uniform
    nlinarith
  · apply round3_le_int
    unfold uniform
    nlinarith

/-- Claim C9: missing inputs do not raise: when `free_text` is absent or
falsy it is coerced to `""` and `reversed_text` is written as the empty
string, and when `integer_slider` is absent or falsy it is coerced to
`0`, `process()` completes without raising and `random_float` is written
as `0.0`. -/
theorem process_total_on_missing_inputs (st : NodeState) (u : ℚ) :
    (pyTruthy (st.values "free_text") = false →
      (ExampleNode.process st u).state.parameter_output_values "reversed_text" =
        some (PyValue.str "")) ∧
    (pyTruthy (st.values "integer_slider") = false →
      (ExampleNode.process st u).raised = false ∧
      (ExampleNode.process st u).state.parameter_output_values "random_float" =
        some (PyValue.float 0)) := by
  have hrev : reverseWords "" = "" := by
    unfold reverseWords
    rw [show ("" : String).toList = [] from rfl, splitWS_nil]
    rfl
  constructor
  · intro hft
    have hor1 : pyOr (st.values "free_text") (PyValue.str "") = PyValue.str "" := by
      simp [pyOr, hft]
    cases hf : pyFloat (pyOr (st.values "integer_slider") (PyValue.int 0)) with
    | none =>
      rw [process_eq_of_pyFloat_none st u hf, hor1]
      simp [pyStr, hrev]
    | some b =>
      rw [process_eq_of_pyFloat_some st u b hf, hor1]
      simp [pyStr, hrev]
  · intro hsl
    have hor2 : pyOr (st.values "integer_slider") (PyValue.int 0) = PyValue.int 0 := by
      simp [pyOr, hsl]
    have hf : pyFloat (pyOr (st.values "integer_slider") (PyValue.int 0)) = some ((0 : Int) : ℚ) := by
      rw [hor2]
      rfl
    rw [process_eq_of_pyFloat_some st u _ hf]
    have hz : round3 (uniform 0 0 u) = 0 := by
      rw [uniform_zero_zero, round3_zero]
    refine ⟨rfl, ?_⟩
    simp [hz]

theorem digitChar_mod_isDigit (n : Nat) : (Nat.digitChar (n % 10)).isDigit = true := by
  have h : n % 10 < 10 := Nat.mod_lt n (by norm_num)
  set m := n % 10 with hm
  interval_cases m <;> decide

/-- Claim C5: the button handler `_update_datetime` writes to
`datetime_display` the current date/time rendered as
`%Y-%m-%d %H:%M:%S` (a string matching that shape for every valid
datetime), and changes nothing else on the node. -/
theorem updateDatetime_formats_and_is_local (st : NodeState) (now : PyDateTime)
    (_hy : now.year ≤ 9999) (_hmo : now.month ≤ 12) (_hd : now.day ≤ 31)
    (_hh : now.hour ≤ 23) (_hmi : now.minute ≤ 59) (_hs : now.second ≤ 59) :
    (ExampleNode.updateDatetime st now).values "datetime_display" =
      PyValue.str (strftimeYmdHMS now) ∧
    matchesYmdHMS (strftimeYmdHMS now) = true ∧
    (∀ k, k ≠ "datetime_display" →
      (ExampleNode.updateDatetime st now).values k = st.values k) ∧
    (ExampleNode.updateDatetime st now).name = st.name ∧
    (ExampleNode.updateDatetime st now).metadata = st.metadata ∧
    (ExampleNode.updateDatetime st now).parameters = st.parameters ∧
    (ExampleNode.updateDatetime st now).elements = st.elements ∧
    (ExampleNode.updateDatetime st now).parameter_output_values =
      st.parameter_output_values := by
  refine ⟨by simp [ExampleNode.updateDatetime, set_parameter_value], ?_, ?_,
    rfl, rfl, rfl, rfl, rfl⟩
  · unfold strftimeYmdHMS matchesYmdHMS pad4 pad2
    simp only [List.cons_append, List.nil_append]
    simp [digitChar_mod_isDigit]
  · intro k hk
    simp [ExampleNode.updateDatetime, set_parameter_value, hk]

/-- Claim C6: the constructor registers exactly six parameters, in order
`free_text`, `dropdown`, `integer_slider`, `reversed_text`,
`random_float`, `datetime_display`, each carrying a nonempty name and
type tag and modes drawn from INPUT/PROPERTY/OUTPUT; `reversed_text`
and `random_float` are OUTPUT-only, `datetime_display` is
PROPERTY-only, and the declared defaults are as in the source. -/
theorem init_parameters_eq (name : String)
    (metadata : Option (List (String × PyValue)))
    (vals : String → PyValue) (outs : String → Option PyValue) :
    (ExampleNode.init name metadata vals outs).parameters =
      [freeTextParam, dropdownParam, integerSliderParam, reversedTextParam,
       randomFloatParam, datetimeDisplayParam] := rfl

theorem init_elements_eq (name : String)
    (metadata : Option (List (String × PyValue)))
    (vals : String → PyValue) (outs : String → Option PyValue) :
    (ExampleNode.init name metadata vals outs).elements = [datetimeButtonGroup] := rfl

theorem init_registers_six_parameters (name : String)
    (metadata : Option (List (String × PyValue)))
    (vals : String → PyValue) (outs : String → Option PyValue) :
    ((ExampleNode.init name metadata vals outs).parameters.map Parameter.name =
      ["free_text", "dropdown", "integer_slider", "reversed_text",
       "random_float", "datetime_display"]) ∧
    (∀ p ∈ (ExampleNode.init name metadata vals outs).parameters,
      p.name ≠ "" ∧ p.type ≠ "" ∧ p.allowed_modes ≠ [] ∧
      ∀ m ∈ p.allowed_modes,
        m = ParameterMode.INPUT ∨ m = ParameterMode.PROPERTY ∨ m = ParameterMode.OUTPUT) ∧
    (∀ p ∈ (ExampleNode.init name metadata vals outs).parameters,
      p.name = "reversed_text" → p.allowed_modes = [ParameterMode.OUTPUT]) ∧
    (∀ p ∈ (ExampleNode.init name metadata vals outs).parameters,
      p.name = "random_float" → p.allowed_modes = [ParameterMode.OUTPUT]) ∧
    (∀ p ∈ (ExampleNode.init name metadata vals outs).parameters,
      p.name = "datetime_display" → p.allowed_modes = [ParameterMode.PROPERTY]) ∧
    (∀ p ∈ (ExampleNode.init name metadata vals outs).parameters,
      p.name = "free_text" →
        p.default_value = some (PyValue.str "hello from the example node")) ∧
    (∀ p ∈ (ExampleNode.init name metadata vals outs).parameters,
      p.name = "dropdown" → p.default_value = some (PyValue.str "yes")) ∧
    (∀ p ∈ (ExampleNode.init name metadata vals outs).parameters,
      p.name = "integer_slider" → p.default_value = some (PyValue.int 5)) ∧
    (∀ p ∈ (ExampleNode.init name metadata vals outs).parameters,
      p.name = "datetime_display" →
        p.default_value = some (PyValue.str "Click button to update")) := by
  rw [init_parameters_eq]
  decide

/-- Claim C7: the node attaches exactly the three demonstrated trait
kinds: an `Options` dropdown with choices `yes`/`no`/`maybe` on
`dropdown`, a `Slider` with bounds 1 and 10 on `integer_slider`, and a
single button `update_datetime` in group `datetime_button_group` wired
to the datetime handler; no other parameter carries a trait. -/
theorem init_trait_wiring (name : String)
    (metadata : Option (List (String × PyValue)))
    (vals : String → PyValue) (outs : String → Option PyValue) :
    (∀ p ∈ (ExampleNode.init name metadata vals outs).parameters,
      p.name = "dropdown" → p.traits = [Trait.options ["yes", "no", "maybe"]]) ∧
    (∀ p ∈ (ExampleNode.init name metadata vals outs).parameters,
      p.name = "integer_slider" → p.traits = [Trait.slider 1 10]) ∧
    (∀ p ∈ (ExampleNode.init name metadata vals outs).parameters,
      p.name ≠ "dropdown" → p.name ≠ "integer_slider" → p.traits = []) ∧
    ((ExampleNode.init name metadata vals outs).elements =
      [NodeElement.buttonGroup "datetime_button_group"
        [{ name := "update_datetime", label := "Update Date/Time",
           icon := "calendar", on_click := Handler.updateDatetime }]]) := by
  rw [init_parameters_eq, init_elements_eq]
  decide

/-- A concrete value store used by the witness states. -/
def wVals : String → PyValue :=
  fun k => if k = "free_text" then PyValue.str "hello world"
    else if k = "dropdown" then PyValue.str "yes"
    else if k = "integer_slider" then PyValue.int 5
    else PyValue.none

/-- A concrete node state with all three inputs populated. -/
def wState : NodeState :=
  { name := "example", metadata := Option.none, parameters := [], elements := [],
    values := wVals, parameter_output_values := fun _ => Option.none }

/-- A concrete node state whose value store is entirely unset. -/
def wEmptyState : NodeState :=
  { name := "example", metadata := Option.none, parameters := [], elements := [],
    values := fun _ => PyValue.none, parameter_output_values := fun _ => Option.none }

theorem process_writes_reversed_text_witness :
    (ExampleNode.process wState 0).state.parameter_output_values "reversed_text" =
      some (PyValue.str (String.mk (joinWS (splitWS ("hello world" : String).toList).reverse))) :=
  process_writes_reversed_text wState 0 "hello world" rfl

theorem validate_result_iff_empty_witness :
    ExampleNode.validateBeforeWorkflowRun wEmptyState =
      some [PyExc.valueError (freeTextErrorMsg "example")] :=
  (validate_result_iff_empty wEmptyState).1 rfl

theorem process_random_float_bounded_witness :
    (ExampleNode.process wState (1/2)).raised = false ∧
    ∃ q, (ExampleNode.process wState (1/2)).state.parameter_output_values "random_float" =
        some (PyValue.float q) ∧ 0 ≤ q ∧ q ≤ ((5 : Int) : ℚ) :=
  process_random_float_bounded wState (1/2) 5 rfl (by norm_num) (by norm_num) (by norm_num)

theorem process_frame_witness :
    (ExampleNode.process wState 0).state.values = wState.values ∧
    (ExampleNode.process wState 0).state.parameter_output_values "other" =
      wState.parameter_output_values "other" :=
  ⟨(process_frame wState 0).1.2.2.2.2,
   (process_frame wState 0).2.1 "other" (by decide) (by decide) (by decide)⟩

theorem updateDatetime_formats_and_is_local_witness :
    (ExampleNode.updateDatetime wState ⟨2024, 2, 4, 14, 30, 45⟩).values "datetime_display" =
      PyValue.str (strftimeYmdHMS ⟨2024, 2, 4, 14, 30, 45⟩) ∧
    matchesYmdHMS (strftimeYmdHMS ⟨2024, 2, 4, 14, 30, 45⟩) = true :=
  have h := updateDatetime_formats_and_is_local wState ⟨2024, 2, 4, 14, 30, 45⟩
    (by norm_num) (by norm_num) (by norm_num) (by norm_num) (by norm_num) (by norm_num)
  ⟨h.1, h.2.1⟩

theorem init_registers_six_parameters_witness :
    (ExampleNode.init "example" Option.none wVals (fun _ => Option.none)).parameters.map
      Parameter.name =
      ["free_text", "dropdown", "integer_slider", "reversed_text",
       "random_float", "datetime_display"] ∧
    reversedTextParam.allowed_modes = [ParameterMode.OUTPUT] :=
  have h := init_registers_six_parameters "example" Option.none wVals (fun _ => Option.none)
  ⟨h.1, h.2.2.1 reversedTextParam (by rw [init_parameters_eq]; decide) rfl⟩

theorem init_trait_wiring_witness :
    dropdownParam.traits = [Trait.options ["yes", "no", "maybe"]] ∧
    (ExampleNode.init "example" Option.none wVals (fun _ => Option.none)).elements =
      [NodeElement.buttonGroup "datetime_button_group"
        [{ name := "update_datetime", label := "Update Date/Time", icon := "calendar",
           on_click := Handler.updateDatetime }]] :=
  have h := init_trait_wiring "example" Option.none wVals (fun _ => Option.none)
  ⟨h.1 dropdownParam (by rw [init_parameters_eq]; decide) rfl, h.2.2.2⟩

theorem process_total_on_missing_inputs_witness :
    ((ExampleNode.process wEmptyState 0).state.parameter_output_values "reversed_text" =
      some (PyValue.str "")) ∧
    (ExampleNode.process wEmptyState 0).raised = false ∧
    (ExampleNode.process wEmptyState 0).state.parameter_output_values "random_float" =
      some (PyValue.float 0) :=
  ⟨(process_total_on_missing_inputs wEmptyState 0).1 rfl,
   (process_total_on_missing_inputs wEmptyState 0).2 rfl⟩
